import Mathlib

/-!
Verification of the browser-style request object implemented in
`src/ssr/functions/XMLHttpRequest.ts`.

The TypeScript constructor function `XMLHttpRequest` closes over a set of
private mutable variables (`sendFlag`, `errorFlag`, `headers`, `headersCase`,
`settings`, ...) and exposes methods (`open`, `setRequestHeader`, `send`,
`abort`, ...) that mutate them and dispatch events.  We embed that object as
a record `XHR` of all the mutable state, and each method as a pure function
from `XHR` (plus the method's arguments) to `XHR`, paired with an optional
thrown-error message where the source can `throw`.  Event dispatch is
modelled by appending the event name to an `events` log; every assignment to
`readyState` is additionally logged in `stateLog`, so that transient states
are observable in the model.  JavaScript string-keyed objects (`headers`,
`headersCase`, response headers) are modelled as insertion-ordered
association lists with first-match lookup and in-place replacement, which
matches JS object key semantics for string keys.
-/

/-- ASCII lower-casing of one character, as JavaScript `toLowerCase()` acts
on the characters occurring in HTTP header names and methods. -/
def lowerChar (c : Char) : Char :=
  if 65 ≤ c.toNat ∧ c.toNat ≤ 90 then Char.ofNat (c.toNat + 32) else c

/-- JavaScript `s.toLowerCase()` (ASCII range). -/
def strToLower (s : String) : String := String.mk (s.data.map lowerChar)

/-- Whether `a` begins with the character sequence `p`. -/
def beginsWith : List Char → List Char → Bool
  | [], _ => true
  | _ :: _, [] => false
  | p :: ps, c :: cs => p == c && beginsWith ps cs

/-- JS-object-as-map lookup: first entry with the given key. -/
def getAssoc (l : List (String × String)) (k : String) : Option String :=
  match l with
  | [] => none
  | p :: rest => if p.1 = k then some p.2 else getAssoc rest k

/-- JS-object-as-map assignment: replace the value in place if the key is
present (keys keep their original position in a JS object), append otherwise. -/
def setAssoc (l : List (String × String)) (k v : String) : List (String × String) :=
  if l.any (fun p => p.1 == k) then l.map (fun p => if p.1 = k then (k, v) else p)
  else l ++ [(k, v)]

/-- Ready-state constant `this.UNSENT = 0` (line 93). -/
def UNSENT : Nat := 0
/-- Ready-state constant `this.OPENED = 1` (line 94). -/
def OPENED : Nat := 1
/-- Ready-state constant `this.HEADERS_RECEIVED = 2` (line 95). -/
def HEADERS_RECEIVED : Nat := 2
/-- Ready-state constant `this.LOADING = 3` (line 96). -/
def LOADING : Nat := 3
/-- Ready-state constant `this.DONE = 4` (line 97). -/
def DONE : Nat := 4

/-- Source `defaultHeaders` (lines 44-47). -/
def defaultHeaders : List (String × String) :=
  [("User-Agent", "node-XMLHttpRequest"), ("Accept", "*/*")]

/-- Source `forbiddenRequestHeaders` (lines 55-76). -/
def forbiddenRequestHeaders : List String :=
  ["accept-charset", "accept-encoding", "access-control-request-headers",
   "access-control-request-method", "connection", "content-length",
   "content-transfer-encoding", "cookie", "cookie2", "date", "expect",
   "host", "keep-alive", "origin", "referer", "te", "trailer",
   "transfer-encoding", "upgrade", "via"]

/-- Source `forbiddenRequestMethods` (line 79). -/
def forbiddenRequestMethods : List String := ["TRACE", "TRACK", "CONNECT"]

/-- The mutable state captured by one `XMLHttpRequest` object: the private
closure variables and the public fields of the source constructor, plus the
`events` dispatch log and the `stateLog` of assignments to `readyState`. -/
structure XHR where
  /-- Field `this.readyState` (line 104), initially UNSENT. -/
  readyState : Nat := UNSENT
  /-- private `sendFlag` (line 82). -/
  sendFlag : Bool := false
  /-- private `errorFlag` (line 84). -/
  errorFlag : Bool := false
  /-- private `disableHeaderCheck` (line 41). -/
  disableHeaderCheck : Bool := false
  /-- Field `settings.method`; `settings` starts as an empty object so the field is initially absent,
  modelled as the empty string. -/
  settingsMethod : String := ""
  /-- Field `settings.url`. -/
  settingsUrl : String := ""
  /-- Field `settings.async`; undefined before `open`, which is falsy, modelled `false`. -/
  settingsAsync : Bool := false
  /-- Field `settings.user` (already passed through `user || null` at `open`). -/
  settingsUser : Option String := none
  /-- Field `settings.password` (already passed through `password || null` at `open`). -/
  settingsPassword : Option String := none
  /-- private `headers` (line 49): canonical-case name → value. -/
  headers : List (String × String) := []
  /-- private `headersCase` (line 50): lower-case name → canonical-case name. -/
  headersCase : List (String × String) := []
  /-- Field `this.status` (line 112), `null` initially, modelled `none`. -/
  status : Option Nat := none
  /-- Field `this.statusText` (line 113). -/
  statusText : Option String := none
  /-- Field `this.responseText` (line 110). -/
  responseText : String := ""
  /-- Field `response.headers` of the stored transport response (lower-cased keys). -/
  responseHeaders : List (String × String) := []
  /-- Log of event names passed to `dispatchEvent`, in dispatch order. -/
  events : List String := []
  /-- Log of every value assigned to `this.readyState`, in assignment order. -/
  stateLog : List Nat := []
  deriving DecidableEq

/-- Method `this.dispatchEvent(event)` (lines 639-648): invokes the `on<event>` slot
and all listeners for `event`.  The handlers themselves are external
callbacks; the model records the dispatch in the `events` log. -/
def dispatchEvent (s : XHR) (event : String) : XHR :=
  { s with events := s.events ++ [event] }

/-- Lines 659-661 of `setState`, evaluated after the `readyState`
assignment: dispatch `readystatechange` when async, or the state is below
OPENED or equal to DONE. -/
def setStateRsc (s : XHR) : XHR :=
  if s.settingsAsync = true ∨ s.readyState < OPENED ∨ s.readyState = DONE then
    dispatchEvent s "readystatechange"
  else s

/-- Lines 663-667 of `setState`: at DONE without the error flag, dispatch
`load` then `loadend`. -/
def setStateDoneEvents (s : XHR) : XHR :=
  if s.readyState = DONE ∧ s.errorFlag = false then
    dispatchEvent (dispatchEvent s "load") "loadend"
  else s

/-- Function `setState(state)` (lines 655-669): update `readyState` only when the new
state is LOADING or differs from the current one; then fire
`readystatechange` when `settings.async` or the (new) state is < OPENED or
== DONE; and when the new state is DONE with the error flag clear, fire
`load` then `loadend`. -/
def setState (s : XHR) (state : Nat) : XHR :=
  if state = LOADING ∨ s.readyState ≠ state then
    setStateDoneEvents
      (setStateRsc { s with readyState := state, stateLog := s.stateLog ++ [state] })
  else s

/-- C1: `setState` updates `readyState` only for LOADING or a differing new
state; every accepted transition fires `readystatechange` exactly when the
async flag is set or the new state is < OPENED or == DONE; and when the
accepted new state is DONE with the error flag false it fires `load` then
`loadend` after the `readystatechange` notification. -/
theorem setState_transition_spec (s : XHR) (state : Nat) :
    (¬(state = LOADING ∨ s.readyState ≠ state) → setState s state = s) ∧
    ((state = LOADING ∨ s.readyState ≠ state) →
      (setState s state).readyState = state ∧
      (setState s state).events = s.events ++
        (if s.settingsAsync = true ∨ state < OPENED ∨ state = DONE then
          ["readystatechange"] else []) ++
        (if state = DONE ∧ s.errorFlag = false then ["load", "loadend"] else [])) := by
  constructor
  · intro h
    simp only [setState, if_neg h]
  · intro h
    simp only [setState, if_pos h]
    by_cases hrc : s.settingsAsync = true ∨ state < OPENED ∨ state = DONE
    · by_cases hd : state = DONE ∧ s.errorFlag = false
      · simp [setStateRsc, setStateDoneEvents, dispatchEvent, hrc, hd]
      · simp [setStateRsc, setStateDoneEvents, dispatchEvent, hrc, hd]
    · have hd : ¬(state = DONE ∧ s.errorFlag = false) := by
        intro hc
        exact hrc (Or.inr (Or.inr hc.1))
      simp [setStateRsc, setStateDoneEvents, dispatchEvent, hrc, hd]

/-- Function `isAllowedHttpHeader(header)` (lines 129-133): true when header checking
is disabled, or when `header` is truthy (non-empty) and its lower-cased form
is not in the forbidden list. -/
def isAllowedHttpHeader (disable : Bool) (header : String) : Bool :=
  disable || (header != "" && !(forbiddenRequestHeaders.contains (strToLower header)))

/-- Function `isAllowedHttpMethod(method)` (lines 141-143): true when `method` is
truthy (non-empty) and not in the forbidden list. -/
def isAllowedHttpMethod (method : String) : Bool :=
  method != "" && !(forbiddenRequestMethods.contains method)

/-- Error-message classifier: the source throws plain `Error`s whose message
starts with the error name. -/
def isInvalidStateError (msg : String) : Bool := beginsWith "INVALID_STATE_ERR".data msg.data

/-- Error-message classifier for `SecurityError`. -/
def isSecurityError (msg : String) : Bool := beginsWith "SecurityError".data msg.data

/-- Lines 211-213 with `header` already rebound to its canonical form:
`headersCase[header.toLowerCase()] = header` and
`headers[header] = headers[header] ? headers[header] + ", " + value : value`
(the existing value is appended to only when truthy, i.e. non-empty). -/
def registerCanon (headers headersCase : List (String × String))
    (canonical value : String) : List (String × String) × List (String × String) :=
  (setAssoc headers canonical
    (match getAssoc headers canonical with
      | some old => if old ≠ "" then old ++ ", " ++ value else value
      | none => value),
   setAssoc headersCase (strToLower canonical) canonical)

/-- Lines 211-213: `header = headersCase[header.toLowerCase()] || header`
picks the previously registered canonical casing when one exists, then the
two maps are updated under that canonical form. -/
def registerHeader (headers headersCase : List (String × String))
    (header value : String) : List (String × String) × List (String × String) :=
  registerCanon headers headersCase
    ((getAssoc headersCase (strToLower header)).getD header) value

/-- Method `this.setRequestHeader(header, value)` (lines 200-214).  Returns the
updated object and the thrown error message, if any.  Check order follows
the source exactly: readyState, then the forbidden-header warning (a silent
return), then the send flag; only afterwards the two maps are updated via
`registerHeader`. -/
def setRequestHeader (s : XHR) (header value : String) : XHR × Option String :=
  if s.readyState ≠ OPENED then
    (s, some "INVALID_STATE_ERR: setRequestHeader can only be called when state is OPEN")
  else if !(isAllowedHttpHeader s.disableHeaderCheck header) then
    -- console.warn("Refused to set unsafe header ...") and return: no throw.
    (s, none)
  else if s.sendFlag then
    (s, some "INVALID_STATE_ERR: send flag is true")
  else
    let r := registerHeader s.headers s.headersCase header value
    ({ s with headers := r.1, headersCase := r.2 }, none)

/-- Concrete state used in witnesses: an opened request. -/
def witnessOpened : XHR := { readyState := OPENED }

theorem setState_transition_spec_witness :
    (setState witnessOpened DONE).readyState = DONE ∧
    (setState witnessOpened DONE).events = ["readystatechange", "load", "loadend"] := by
  have h := (setState_transition_spec witnessOpened DONE).2 (Or.inr (by decide))
  refine ⟨h.1, ?_⟩
  rw [h.2]
  decide

/-- Concrete state used in the C2 counterexample: an opened request whose
send flag is raised (i.e. after `send()` was called, before completion). -/
def openedSent : XHR := { readyState := OPENED, sendFlag := true }

/-- C2 counterexample: with the send flag raised, `setRequestHeader` for the
forbidden header name "cookie" raises nothing at all — the forbidden-header
check (a silent return) precedes the send-flag check in the source — so the
claim that every post-send `setRequestHeader` raises InvalidStateError is
false. -/
theorem setRequestHeader_after_send_counterexample :
    openedSent.sendFlag = true ∧
    setRequestHeader openedSent "cookie" "x" = (openedSent, none) := by
  constructor
  · rfl
  · decide

/-- C2 amended: with the send flag raised, `setRequestHeader` raises
`InvalidStateError` for every header name, except that when the state is
OPENED and the name fails the header check (a forbidden name with checking
enabled, or an empty name) the call returns silently without raising. -/
theorem setRequestHeader_after_send_spec (s : XHR) (header value : String)
    (hsend : s.sendFlag = true)
    (hname : s.readyState ≠ OPENED ∨ isAllowedHttpHeader s.disableHeaderCheck header = true) :
    ∃ e, (setRequestHeader s header value).2 = some e ∧ isInvalidStateError e = true := by
  by_cases hrs : s.readyState = OPENED
  · have hallow : isAllowedHttpHeader s.disableHeaderCheck header = true := by
      rcases hname with h | h
      · exact absurd hrs h
      · exact h
    refine ⟨"INVALID_STATE_ERR: send flag is true", ?_, by decide⟩
    simp [setRequestHeader, hrs, hallow, hsend]
  · refine ⟨"INVALID_STATE_ERR: setRequestHeader can only be called when state is OPEN",
      ?_, by decide⟩
    simp [setRequestHeader, hrs]

theorem setRequestHeader_after_send_spec_witness :
    ∃ e, (setRequestHeader openedSent "X-Custom" "v").2 = some e ∧
      isInvalidStateError e = true :=
  setRequestHeader_after_send_spec openedSent "X-Custom" "v" rfl (Or.inr (by decide))

/-- C6: while state == OPENED with the send flag down and header checking
enabled, `setRequestHeader` on a name whose lower-cased form is forbidden
leaves both header maps (and the whole object) unchanged and raises no
exception. -/
theorem setRequestHeader_forbidden_noop (s : XHR) (header value : String)
    (hrs : s.readyState = OPENED) (hsend : s.sendFlag = false)
    (hchk : s.disableHeaderCheck = false)
    (hforb : forbiddenRequestHeaders.contains (strToLower header) = true) :
    setRequestHeader s header value = (s, none) := by
  have hmem : strToLower header ∈ forbiddenRequestHeaders := by
    simpa using hforb
  have hallow : isAllowedHttpHeader s.disableHeaderCheck header = false := by
    simp [isAllowedHttpHeader, hchk, hmem]
  simp [setRequestHeader, hrs, hallow]

theorem setRequestHeader_forbidden_noop_witness :
    setRequestHeader witnessOpened "Cookie" "a=b" = (witnessOpened, none) :=
  setRequestHeader_forbidden_noop witnessOpened "Cookie" "a=b" rfl rfl rfl (by decide)

/-- Method `this.open(method, url, async, user, password)` (lines 158-182).  The
error flag is reset to `false` FIRST; only then is the method validated, so
a failing `open` still clears a previously set error flag.  On success the
request settings are stored (`async` defaults to `true` when not a boolean,
`user`/`password` pass through `x || null`) and `setState(OPENED)` runs. -/
def openReq (s : XHR) (method url : String) (async : Option Bool)
    (user password : Option String) : XHR × Option String :=
  let s0 : XHR := { s with errorFlag := false }
  if !(isAllowedHttpMethod method) then
    (s0, some "SecurityError: Request method not allowed")
  else
    let s1 : XHR := { s0 with
      settingsMethod := method
      settingsUrl := url
      settingsAsync := async.getD true
      settingsUser := match user with
        | some u => if u = "" then none else some u
        | none => none
      settingsPassword := match password with
        | some p => if p = "" then none else some p
        | none => none }
    (setState s1 OPENED, none)

/-- Method `this.abort()` (lines 584-607): drop the transport request handle, reset
`headers` to the defaults (without touching `headersCase`), zero out status
and response bodies, raise the error flag; when the state is neither UNSENT
nor DONE and not an un-sent OPENED, clear the send flag and force DONE via
`setState`; finally assign `readyState = UNSENT` directly and dispatch
`abort`.  The source contains no `throw`, so the model is a total function
with no error component. -/
def abort (s : XHR) : XHR :=
  let s1 : XHR := { s with
    headers := defaultHeaders
    status := some 0
    responseText := ""
    errorFlag := true }
  let s2 : XHR :=
    if s1.readyState ≠ UNSENT ∧ (s1.readyState ≠ OPENED ∨ s1.sendFlag = true) ∧
        s1.readyState ≠ DONE then
      setState { s1 with sendFlag := false } DONE
    else s1
  let s3 : XHR := { s2 with readyState := UNSENT, stateLog := s2.stateLog ++ [UNSENT] }
  dispatchEvent s3 "abort"

/-- C3: aborting after `send()` but before any transport callback (state
OPENED, send flag raised) never raises (`abort` is total), raises the error
flag, resets the request headers to the defaults, passes transiently through
DONE (firing its `readystatechange`), ends with readyState UNSENT and
status 0, dispatches exactly `readystatechange` then `abort`, and never
dispatches `load` or `loadend` for the attempt. -/
theorem abort_after_send_spec (s : XHR)
    (hrs : s.readyState = OPENED) (hsend : s.sendFlag = true) :
    (abort s).readyState = UNSENT ∧
    (abort s).status = some 0 ∧
    (abort s).errorFlag = true ∧
    (abort s).sendFlag = false ∧
    (abort s).headers = defaultHeaders ∧
    (abort s).stateLog = s.stateLog ++ [DONE, UNSENT] ∧
    (abort s).events = s.events ++ ["readystatechange", "abort"] := by
  have hcond : (OPENED ≠ UNSENT ∧ (OPENED ≠ OPENED ∨ True) ∧ OPENED ≠ DONE) := by
    refine ⟨by decide, Or.inr trivial, by decide⟩
  simp only [abort, setState, setStateRsc, setStateDoneEvents, dispatchEvent, hrs, hsend]
  norm_num [UNSENT, OPENED, DONE, LOADING]

/-- Concrete state used in the C3 witness. -/
def abortWitnessState : XHR := { readyState := OPENED, sendFlag := true }

theorem abort_after_send_spec_witness :
    (abort abortWitnessState).readyState = UNSENT ∧
    (abort abortWitnessState).status = some 0 ∧
    (abort abortWitnessState).errorFlag = true ∧
    (abort abortWitnessState).sendFlag = false ∧
    (abort abortWitnessState).headers = defaultHeaders ∧
    (abort abortWitnessState).stateLog = [DONE, UNSENT] ∧
    (abort abortWitnessState).events = ["readystatechange", "abort"] := by
  have h := abort_after_send_spec abortWitnessState rfl rfl
  simpa using h

/-- C10: calling `open` with a method in the forbidden set (TRACE, TRACK,
CONNECT) raises SecurityError, but the error flag has already been reset to
false before the validation, so the flag is lost even though `open` fails;
every other part of the state — in particular `readyState` and the stored
request settings — is unchanged. -/
theorem open_forbidden_method_spec (s : XHR) (method url : String)
    (async : Option Bool) (user password : Option String)
    (hm : forbiddenRequestMethods.contains method = true) :
    openReq s method url async user password =
      ({ s with errorFlag := false }, some "SecurityError: Request method not allowed") := by
  have hmem : method ∈ forbiddenRequestMethods := by simpa using hm
  have hallow : isAllowedHttpMethod method = false := by
    simp [isAllowedHttpMethod, hmem]
  simp [openReq, hallow]

/-- Concrete state used in the C10 witness: a request whose error flag is
set (e.g. after a failed attempt). -/
def erroredState : XHR := { readyState := DONE, errorFlag := true }

theorem open_forbidden_method_spec_witness :
    openReq erroredState "TRACE" "http://x/" none none none =
      ({ erroredState with errorFlag := false },
        some "SecurityError: Request method not allowed") :=
  open_forbidden_method_spec erroredState "TRACE" "http://x/" none none none (by decide)

/-- The components of a URL as produced by the host's `new Url.URL(...)`
parser (an external collaborator): `protocol` keeps its trailing colon,
`port` is `none` when the URL has no explicit port (JS `url.port == ""`),
`search` is `""` or starts with `?`. -/
structure ParsedUrl where
  protocol : String
  hostname : String
  port : Option Nat
  pathname : String
  search : String
  deriving DecidableEq

/-- The connection options built for a redirect follow-up request
(`newOptions`, lines 437-444). -/
structure RedirectOptions where
  hostname : String
  port : Option Nat
  path : String
  method : String
  headers : List (String × String)
  deriving DecidableEq

/-- The redirect branch of `responseHandler` (lines 423-451): when the
response status is 301, 302, 303 or 307, `settings.url` becomes the
`Location` response header, the new connection options are built from the
host parser's view of that URL, and the follow-up method is GET for 303 and
the original method otherwise.  `locUrl` is the host parser's parse of
`location`.  Returns `none` when the status is not a redirect status (the
handler then continues with normal response processing). -/
def responseHandlerRedirect (s : XHR) (statusCode : Nat) (location : String)
    (locUrl : ParsedUrl) : Option (XHR × RedirectOptions) :=
  if statusCode = 301 ∨ statusCode = 302 ∨ statusCode = 303 ∨ statusCode = 307 then
    some ({ s with settingsUrl := location },
      { hostname := locUrl.hostname
        port := locUrl.port
        path := locUrl.pathname
        method := if statusCode = 303 then "GET" else s.settingsMethod
        headers := s.headers })
  else none

/-- C4: for every async response with status 301, 302, 303 or 307, the
request is reissued to the URL taken from the `Location` header (it becomes
`settings.url` and the new connection parameters come from its parse), with
method GET when the status is 303 and the original request method for 301,
302 and 307. -/
theorem redirect_spec (s : XHR) (statusCode : Nat) (location : String)
    (locUrl : ParsedUrl)
    (hred : statusCode = 301 ∨ statusCode = 302 ∨ statusCode = 303 ∨ statusCode = 307) :
    ∃ s' opts, responseHandlerRedirect s statusCode location locUrl = some (s', opts) ∧
      s'.settingsUrl = location ∧
      opts.hostname = locUrl.hostname ∧
      opts.port = locUrl.port ∧
      opts.path = locUrl.pathname ∧
      (statusCode = 303 → opts.method = "GET") ∧
      (statusCode ≠ 303 → opts.method = s.settingsMethod) := by
  unfold responseHandlerRedirect
  rw [if_pos hred]
  refine ⟨_, _, rfl, rfl, rfl, rfl, rfl, ?_, ?_⟩
  · intro h303
    simp [h303]
  · intro h303
    simp [h303]

/-- Concrete parse of "/other" used in the C4 witness. -/
def otherUrl : ParsedUrl :=
  { protocol := "http:", hostname := "example.com", port := none,
    pathname := "/other", search := "" }

/-- Concrete 302 state used in the C4 witness: a POST request being
redirected to /other must be reissued as POST. -/
def postState : XHR := { readyState := OPENED, settingsMethod := "POST", sendFlag := true }

theorem redirect_spec_witness :
    ∃ s' opts, responseHandlerRedirect postState 302 "/other" otherUrl = some (s', opts) ∧
      s'.settingsUrl = "/other" ∧
      opts.hostname = otherUrl.hostname ∧
      opts.port = otherUrl.port ∧
      opts.path = otherUrl.pathname ∧
      (302 = 303 → opts.method = "GET") ∧
      (302 ≠ 303 → opts.method = postState.settingsMethod) :=
  redirect_spec postState 302 "/other" otherUrl (Or.inr (Or.inl rfl))


theorem getAssoc_replace_self (l : List (String × String)) (k v : String)
    (h : l.any (fun p => p.1 == k) = true) :
    getAssoc (l.map (fun p => if p.1 = k then (k, v) else p)) k = some v := by
  induction l with
  | nil => simp at h
  | cons p rest ih =>
    by_cases hp : p.1 = k
    · simp [getAssoc, hp]
    · have hrest : rest.any (fun q => q.1 == k) = true := by
        rcases List.any_eq_true.mp h with ⟨q, hq, hqk⟩
        rcases List.mem_cons.mp hq with rfl | hq'
        · exact absurd (by simpa using hqk) hp
        · exact List.any_eq_true.mpr ⟨q, hq', hqk⟩
      simpa [getAssoc, hp] using ih hrest

theorem getAssoc_replace_ne (l : List (String × String)) (k v k' : String)
    (hne : k' ≠ k) :
    getAssoc (l.map (fun p => if p.1 = k then (k, v) else p)) k' = getAssoc l k' := by
  induction l with
  | nil => simp [getAssoc]
  | cons p rest ih =>
    simp only [List.map_cons, getAssoc]
    by_cases hp : p.1 = k
    · rw [if_pos hp]
      have h1 : ¬((k, v).1 = k') := fun hc => hne (by simpa using hc.symm)
      have h2 : ¬(p.1 = k') := by rw [hp]; exact fun hc => hne hc.symm
      rw [if_neg h1, if_neg h2]
      exact ih
    · rw [if_neg hp]
      by_cases hp' : p.1 = k'
      · rw [if_pos hp', if_pos hp']
      · rw [if_neg hp', if_neg hp']
        exact ih

theorem getAssoc_append_single_ne (l : List (String × String)) (k v k' : String)
    (hne : k' ≠ k) : getAssoc (l ++ [(k, v)]) k' = getAssoc l k' := by
  induction l with
  | nil => simp [getAssoc, hne.symm]
  | cons p rest ih =>
    by_cases hp : p.1 = k'
    · simp [getAssoc, hp]
    · simpa [getAssoc, hp] using ih

theorem getAssoc_setAssoc_self (l : List (String × String)) (k v : String) :
    getAssoc (setAssoc l k v) k = some v := by
  unfold setAssoc
  by_cases h : l.any (fun p => p.1 == k) = true
  · rw [if_pos h]
    exact getAssoc_replace_self l k v h
  · rw [if_neg h]
    induction l with
    | nil => simp [getAssoc]
    | cons p rest ih =>
      have hp : ¬p.1 = k := by
        intro hpk
        exact h (List.any_eq_true.mpr ⟨p, List.mem_cons_self p rest, by simpa using hpk⟩)
      have hrest : ¬rest.any (fun q => q.1 == k) = true := by
        intro hr
        rcases List.any_eq_true.mp hr with ⟨q, hq, hqk⟩
        exact h (List.any_eq_true.mpr ⟨q, List.mem_cons_of_mem p hq, hqk⟩)
      simpa [getAssoc, hp] using ih hrest

theorem getAssoc_setAssoc_ne (l : List (String × String)) (k v k' : String)
    (hne : k' ≠ k) : getAssoc (setAssoc l k v) k' = getAssoc l k' := by
  unfold setAssoc
  by_cases h : l.any (fun p => p.1 == k) = true
  · rw [if_pos h]
    exact getAssoc_replace_ne l k v k' hne
  · rw [if_neg h]
    exact getAssoc_append_single_ne l k v k' hne

theorem mem_setAssoc (l : List (String × String)) (k v : String)
    (p : String × String) (hp : p ∈ setAssoc l k v) :
    p = (k, v) ∨ (p ∈ l ∧ p.1 ≠ k) := by
  unfold setAssoc at hp
  by_cases h : l.any (fun q => q.1 == k) = true
  · rw [if_pos h] at hp
    rcases List.mem_map.mp hp with ⟨q, hq, hfq⟩
    by_cases hqk : q.1 = k
    · left
      rw [if_pos hqk] at hfq
      exact hfq.symm
    · right
      rw [if_neg hqk] at hfq
      exact ⟨hfq ▸ hq, hfq ▸ hqk⟩
  · rw [if_neg h] at hp
    rcases List.mem_append.mp hp with hl | hs
    · right
      refine ⟨hl, fun hpk => ?_⟩
      exact h (List.any_eq_true.mpr ⟨p, hl, by simpa using hpk⟩)
    · left
      simpa using hs

theorem getAssoc_unique (l : List (String × String)) (k a b : String)
    (ha : getAssoc l k = some a) (hb : getAssoc l k = some b) : a = b := by
  rw [ha] at hb
  exact Option.some_inj.mp hb

theorem getAssoc_mem (l : List (String × String)) (k v : String)
    (h : getAssoc l k = some v) : (k, v) ∈ l := by
  induction l with
  | nil => simp [getAssoc] at h
  | cons p rest ih =>
    unfold getAssoc at h
    by_cases hp : p.1 = k
    · rw [if_pos hp] at h
      have hv : v = p.2 := (Option.some_inj.mp h).symm
      have : (k, v) = p := by
        cases p
        simp only [Prod.mk.injEq]
        exact ⟨hp.symm, hv⟩
      rw [this]
      exact List.mem_cons_self p rest
    · rw [if_neg hp] at h
      exact List.mem_cons_of_mem p (ih h)

/-- The co-indexing invariant of the two request-header maps (spec §3,
Header Set): every canonical name stored in `headers` is what its
lower-cased key resolves to in `headersCase` (so a lower-case lookup always
yields the casing under which the header is currently registered), and every
`headersCase` entry maps the lower-casing of its canonical form to a name
that has a value in `headers`. -/
def coIndexed (headers headersCase : List (String × String)) : Prop :=
  (∀ p ∈ headers, getAssoc headersCase (strToLower p.1) = some p.1) ∧
  (∀ q ∈ headersCase, q.1 = strToLower q.2 ∧ (getAssoc headers q.2).isSome = true)

theorem registerCanon_preserves_coIndexed (hs hc : List (String × String))
    (canonical value : String) (inv : coIndexed hs hc)
    (ha : getAssoc hc (strToLower canonical) = some canonical ∨
          getAssoc hc (strToLower canonical) = none) :
    coIndexed (registerCanon hs hc canonical value).1
      (registerCanon hs hc canonical value).2 := by
  obtain ⟨inv1, inv2⟩ := inv
  unfold registerCanon
  constructor
  · intro p hp
    rcases mem_setAssoc _ _ _ p hp with rfl | ⟨hpl, hpne⟩
    · exact getAssoc_setAssoc_self hc (strToLower canonical) canonical
    · have hold := inv1 p hpl
      by_cases hlow : strToLower p.1 = strToLower canonical
      · exfalso
        rw [hlow] at hold
        rcases ha with ha | ha
        · exact hpne (getAssoc_unique hc (strToLower canonical) p.1 canonical hold ha)
        · rw [ha] at hold
          exact Option.noConfusion hold
      · rw [getAssoc_setAssoc_ne hc (strToLower canonical) canonical _ hlow]
        exact hold
  · intro q hq
    rcases mem_setAssoc _ _ _ q hq with rfl | ⟨hql, hqne⟩
    · refine ⟨rfl, ?_⟩
      rw [getAssoc_setAssoc_self]
      rfl
    · obtain ⟨hq1, hq2⟩ := inv2 q hql
      refine ⟨hq1, ?_⟩
      have hne : q.2 ≠ canonical := by
        intro hc2
        exact hqne (by rw [hq1, hc2])
      rw [getAssoc_setAssoc_ne hs canonical _ q.2 hne]
      exact hq2

theorem registerHeader_preserves_coIndexed (hs hc : List (String × String))
    (header value : String) (inv : coIndexed hs hc) :
    coIndexed (registerHeader hs hc header value).1
      (registerHeader hs hc header value).2 := by
  unfold registerHeader
  rcases hcan : getAssoc hc (strToLower header) with _ | c
  · rw [Option.getD_none]
    exact registerCanon_preserves_coIndexed hs hc header value inv (Or.inr hcan)
  · rw [Option.getD_some]
    have hmem := getAssoc_mem hc (strToLower header) c hcan
    have hlow : strToLower header = strToLower c := (inv.2 _ hmem).1
    refine registerCanon_preserves_coIndexed hs hc c value inv (Or.inl ?_)
    rw [← hlow]
    exact hcan

theorem setRequestHeader_preserves_coIndexed (s : XHR) (header value : String)
    (hinv : coIndexed s.headers s.headersCase) :
    coIndexed (setRequestHeader s header value).1.headers
      (setRequestHeader s header value).1.headersCase := by
  unfold setRequestHeader
  by_cases h1 : s.readyState ≠ OPENED
  · rw [if_pos h1]
    exact hinv
  rw [if_neg h1]
  by_cases h2 : (!isAllowedHttpHeader s.disableHeaderCheck header) = true
  · rw [if_pos h2]
    exact hinv
  rw [if_neg h2]
  by_cases h3 : s.sendFlag = true
  · rw [if_pos h3]
    exact hinv
  rw [if_neg h3]
  exact registerHeader_preserves_coIndexed s.headers s.headersCase header value hinv

/-- A sequence of `setRequestHeader` calls, each applied to the state left
by the previous one (thrown errors leave the state unchanged, so failed
calls in the sequence are no-ops). -/
def applyHeaderCalls (s : XHR) : List (String × String) → XHR
  | [] => s
  | (h, v) :: rest => applyHeaderCalls (setRequestHeader s h v).1 rest

/-- C5: starting from the fresh (empty) header maps, after any sequence of
`setRequestHeader` calls the two maps are co-indexed: every canonical name
in `headers` appears in `headersCase` under its lower-cased key and resolves
back to exactly that registered casing (the form recorded by the most recent
registration for that name), and every `headersCase` entry is the lower-case
key of a name carrying a value in `headers`. -/
theorem header_coindexing_invariant (s : XHR) (calls : List (String × String))
    (hh : s.headers = []) (hc : s.headersCase = []) :
    coIndexed (applyHeaderCalls s calls).headers
      (applyHeaderCalls s calls).headersCase := by
  have base : coIndexed s.headers s.headersCase := by
    rw [hh, hc]
    exact ⟨fun p hp => absurd hp (List.not_mem_nil p),
           fun q hq => absurd hq (List.not_mem_nil q)⟩
  clear hh hc
  induction calls generalizing s with
  | nil => exact base
  | cons c rest ih =>
    cases c with
    | mk h v =>
      exact ih (setRequestHeader s h v).1 (setRequestHeader_preserves_coIndexed s h v base)

theorem header_coindexing_invariant_witness :
    coIndexed (applyHeaderCalls witnessOpened [("Foo", "a"), ("FOO", "b")]).headers
      (applyHeaderCalls witnessOpened [("Foo", "a"), ("FOO", "b")]).headersCase :=
  header_coindexing_invariant witnessOpened [("Foo", "a"), ("FOO", "b")] rfl rfl

/-- JavaScript `s.substring(0, e)` for the uses in the source (`e` is the
string length minus 2, clamped at 0 by Nat subtraction), at character level. -/
def jsSubstringTo (s : String) (e : Nat) : String := String.mk (s.data.take e)

/-- The serialization loop of `getAllResponseHeaders` (lines 248-261): one
`name + ": " + value + "\r\n"` line per response header, in object order.
The `set-cookie`/`set-cookie2` arm of the source tests `Array.isArray(i)`
on the string key `i`, which is never true, so those names fall into the
`else` arm and are emitted in exactly the same shape. -/
def serializeRespHeaders : List (String × String) → String
  | [] => ""
  | (k, v) :: rest =>
    (if k != "set-cookie" && k != "set-cookie2" then k ++ ": " ++ v ++ "\r\n"
     else k ++ ": " ++ v ++ "\r\n") ++ serializeRespHeaders rest

/-- Method `this.getAllResponseHeaders()` (lines 242-263): empty string while the
state is below HEADERS_RECEIVED or the error flag is set; otherwise the
serialized lines with `result.substring(0, result.length - 2)` removing the
trailing CR+LF. -/
def getAllResponseHeaders (s : XHR) : String :=
  if s.readyState < HEADERS_RECEIVED ∨ s.errorFlag = true then ""
  else
    jsSubstringTo (serializeRespHeaders s.responseHeaders)
      ((serializeRespHeaders s.responseHeaders).length - 2)

/-- The spec's wording for C9: all response headers as `name: value` lines
joined by CR+LF, with no trailing CR+LF. -/
def joinedHeaderLines : List (String × String) → String
  | [] => ""
  | [p] => p.1 ++ ": " ++ p.2
  | p :: rest => p.1 ++ ": " ++ p.2 ++ "\r\n" ++ joinedHeaderLines rest

theorem string_mk_data (s : String) : String.mk s.data = s := rfl

theorem serialize_eq_joined (rh : List (String × String)) (hne : rh ≠ []) :
    serializeRespHeaders rh = joinedHeaderLines rh ++ "\r\n" := by
  induction rh with
  | nil => exact absurd rfl hne
  | cons p rest ih =>
    cases rest with
    | nil =>
      cases p with
      | mk k v =>
        show (if k != "set-cookie" && k != "set-cookie2" then k ++ ": " ++ v ++ "\r\n"
          else k ++ ": " ++ v ++ "\r\n") ++ serializeRespHeaders [] =
          (k ++ ": " ++ v) ++ "\r\n"
        rw [ite_self]
        show (k ++ ": " ++ v ++ "\r\n") ++ "" = (k ++ ": " ++ v) ++ "\r\n"
        rw [String.append_empty]
    | cons q rest2 =>
      cases p with
      | mk k v =>
        show (if k != "set-cookie" && k != "set-cookie2" then k ++ ": " ++ v ++ "\r\n"
          else k ++ ": " ++ v ++ "\r\n") ++ serializeRespHeaders (q :: rest2) =
          (k ++ ": " ++ v ++ "\r\n" ++ joinedHeaderLines (q :: rest2)) ++ "\r\n"
        rw [ite_self, ih (List.cons_ne_nil q rest2)]
        simp [String.append_assoc]

theorem jsSubstringTo_append_crlf (x : String) :
    jsSubstringTo (x ++ "\r\n") ((x ++ "\r\n").length - 2) = x := by
  have hlen : (x ++ "\r\n").length - 2 = x.data.length := by
    rw [String.length_append]
    rfl
  rw [jsSubstringTo, hlen]
  have hdata : (x ++ "\r\n").data = x.data ++ "\r\n".data := rfl
  rw [hdata, List.take_left]

/-- C9: once readyState ≥ HEADERS_RECEIVED with the error flag clear,
`getAllResponseHeaders` returns every response header — `Set-Cookie` and
`Set-Cookie2` entries included — as `name: value` lines joined by CR+LF
with the trailing CR+LF removed. -/
theorem getAllResponseHeaders_spec (s : XHR)
    (hrs : HEADERS_RECEIVED ≤ s.readyState) (herr : s.errorFlag = false) :
    getAllResponseHeaders s = joinedHeaderLines s.responseHeaders := by
  have hguard : ¬(s.readyState < HEADERS_RECEIVED ∨ s.errorFlag = true) := by
    rintro (h | h)
    · omega
    · rw [herr] at h
      exact Bool.noConfusion h
  rw [getAllResponseHeaders, if_neg hguard]
  cases hrh : s.responseHeaders with
  | nil => rfl
  | cons p rest =>
    rw [serialize_eq_joined (p :: rest) (List.cons_ne_nil p rest)]
    exact jsSubstringTo_append_crlf (joinedHeaderLines (p :: rest))

/-- Concrete state used in the C9 witness: a completed response whose
headers include a `set-cookie` entry. -/
def headersReceivedState : XHR :=
  { readyState := HEADERS_RECEIVED,
    responseHeaders := [("content-type", "text/html"), ("set-cookie", "sid=1")] }

theorem getAllResponseHeaders_spec_witness :
    getAllResponseHeaders headersReceivedState =
      joinedHeaderLines headersReceivedState.responseHeaders := by
  have h := getAllResponseHeaders_spec headersReceivedState (by decide) rfl
  exact h

/-- The standard base64 alphabet used by `Buffer.toString("base64")`. -/
def base64Alphabet : List Char :=
  "ABCDEFGHIJKLMNOPQRSTUVWXYZabcdefghijklmnopqrstuvwxyz0123456789+/".data

def base64Char (n : Nat) : Char := base64Alphabet.getD n 'A'

/-- Base64 of a byte list, three bytes to four output characters, with `=`
padding on a trailing group of one or two bytes. -/
def base64Chunks : List Nat → List Char
  | [] => []
  | [b1] => [base64Char (b1 / 4), base64Char (b1 % 4 * 16), '=', '=']
  | [b1, b2] => [base64Char (b1 / 4), base64Char (b1 % 4 * 16 + b2 / 16),
      base64Char (b2 % 16 * 4), '=']
  | b1 :: b2 :: b3 :: rest =>
      base64Char (b1 / 4) :: base64Char (b1 % 4 * 16 + b2 / 16) ::
      base64Char (b2 % 16 * 4 + b3 / 64) :: base64Char (b3 % 64) :: base64Chunks rest

/-- Node `Buffer.from(s).toString("base64")` (line 375-376): base64 of the UTF-8
bytes of `s`. -/
def base64Encode (s : String) : String :=
  String.mk (base64Chunks (s.toUTF8.toList.map (fun b => b.toNat)))

/-- The connection options built by `send` (lines 394-402); `agent: false`
and `withCredentials` carry no state relevant to the claims. -/
structure RequestOptions where
  host : String
  port : Nat
  path : String
  method : String
  headers : List (String × String)
  deriving DecidableEq

/-- Outcome of the pre-transport part of `send`: a thrown error (all throws
in `send` happen before any state mutation), delegation to the host
filesystem for `file:` URLs, or a fully prepared network request. -/
inductive SendResult where
  | err (msg : String)
  | localFile (s : XHR) (async : Bool) (path : String)
  | network (s : XHR) (opts : RequestOptions) (ssl : Bool) (body : Option String)
  deriving DecidableEq

/-- Lines 351-405 of `send`, once `ssl`/`host` have been decided by the
protocol switch: default port, query string, default-header merge, `Host`
header, basic auth, `Content-Length`/`Content-Type` rules, and the reset of
the error flag, producing the connection options. -/
def networkPath (s : XHR) (url : ParsedUrl) (ssl : Bool) (host : String)
    (data : Option String) : SendResult :=
  let port : Nat := url.port.getD (if ssl then 443 else 80)
  let uri : String := url.pathname ++ (if url.search ≠ "" then url.search else "")
  -- lines 358-362: set each default only when `headersCase[lc]` is falsy
  let headers1 := defaultHeaders.foldl
    (fun hs p =>
      if (getAssoc s.headersCase (strToLower p.1)).getD "" = "" then setAssoc hs p.1 p.2
      else hs)
    s.headers
  -- lines 365-368: `headers.Host = host`, appending ":" + url.port unless
  -- `(ssl && port === 443) || port === 80`
  let headers2 := setAssoc headers1 "Host" host
  let headers3 :=
    if ¬((ssl = true ∧ port = 443) ∨ port = 80) then
      setAssoc headers2 "Host"
        (host ++ ":" ++ (match url.port with | some p => toString p | none => ""))
    else headers2
  -- lines 371-377: basic auth; `settings.password` after `open` is null or
  -- a non-empty string, so `typeof settings.password === "undefined"` never
  -- fires and string concatenation renders null as "null"
  let headers4 :=
    match s.settingsUser with
    | some u =>
      let pw := match s.settingsPassword with | some p => p | none => "null"
      setAssoc headers3 "Authorization" ("Basic " ++ base64Encode (u ++ ":" ++ pw))
    | none => headers3
  -- lines 380-392: body and Content-Length / Content-Type rules
  let bodyStep : List (String × String) × Option String :=
    if s.settingsMethod = "GET" ∨ s.settingsMethod = "HEAD" then (headers4, none)
    else match data with
    | some d =>
      if d ≠ "" then
        let h1 := setAssoc headers4 "Content-Length" (toString d.utf8ByteSize)
        let h2 :=
          if (getAssoc h1 "Content-Type").getD "" = "" then
            setAssoc h1 "Content-Type" "text/plain;charset=UTF-8"
          else h1
        (h2, some d)
      else if s.settingsMethod = "POST" then
        (setAssoc headers4 "Content-Length" "0", some d)
      else (headers4, some d)
    | none =>
      if s.settingsMethod = "POST" then (setAssoc headers4 "Content-Length" "0", none)
      else (headers4, none)
  .network { s with headers := bodyStep.1, errorFlag := false }
    { host := host, port := port, path := uri, method := s.settingsMethod,
      headers := bodyStep.1 }
    ssl bodyStep.2

/-- Lines 284-405 of `send`: the state checks, the protocol switch and the
pre-transport preparation.  NOTE the protocol switch (lines 299-320) in the
source has a `break` directly after `ssl = true` in the `"https:"` case,
although the adjacent comment says "SSL & non-SSL both need host, no break
here"; the `host` variable therefore keeps its initial value `""` for https
URLs, and the model reproduces that faithfully. -/
def sendPrelude (s : XHR) (url : ParsedUrl) (data : Option String) : SendResult :=
  if s.readyState ≠ OPENED then
    .err "INVALID_STATE_ERR: connection must be opened before send() is called"
  else if s.sendFlag then
    .err "INVALID_STATE_ERR: send has already been called"
  else if url.protocol = "https:" then
    networkPath s url true "" data
  else if url.protocol = "http:" then
    networkPath s url false url.hostname data
  else if url.protocol = "file:" then
    if s.settingsMethod ≠ "GET" then .err "XMLHttpRequest: Only GET method is supported"
    else .localFile s s.settingsAsync url.pathname
  else if url.protocol = "" then
    networkPath s url false "localhost" data
  else .err "Protocol not supported."

/-- The `Host` request header of a prepared network request. -/
def outcomeHostHeader : SendResult → Option String
  | .network _ opts _ _ => getAssoc opts.headers "Host"
  | _ => none

/-- Concrete opened GET request to an https URL, used for C7. -/
def httpsGetState : XHR :=
  { readyState := OPENED, settingsMethod := "GET",
    settingsUrl := "https://example.com/" }

/-- The host parser's view of `https://example.com/`. -/
def httpsExampleUrl : ParsedUrl :=
  { protocol := "https:", hostname := "example.com", port := none,
    pathname := "/", search := "" }

/-- C7 (code bug): for the https URL `https://example.com/` the outgoing
`Host` header is the empty string, not the URL's hostname, because the
protocol switch in `send` breaks out of the `"https:"` case before the
`host = url.hostname` assignment that its own comment says it should fall
through to.  The claim (and the source's comment) say the `Host` header is
the URL's hostname. -/
theorem send_https_host_empty :
    outcomeHostHeader (sendPrelude httpsGetState httpsExampleUrl none) = some "" ∧
    httpsExampleUrl.hostname = "example.com" := by
  constructor
  · decide
  · rfl

/-- Method `this.handleError(error)` (lines 572-579): status 0, the error recorded
in `statusText`, its stack in `responseText`, error flag raised, forced
DONE, and an `error` event. -/
def handleError (s : XHR) (error stack : String) : XHR :=
  let s1 : XHR := { s with
    status := some 0, statusText := some error, responseText := stack,
    errorFlag := true }
  dispatchEvent (setState s1 DONE) "error"

/-- The `{err, data: {statusCode, headers, text}}` record the synchronous
worker process serializes to the handoff file (lines 520-544). -/
structure SyncResp where
  err : Option (String × String)
  statusCode : Nat
  headers : List (String × String)
  text : String
  deriving DecidableEq

/-- Lines 558-565: after the busy-wait, the parsed handoff record either
goes to `handleError` or is installed as the response — status and the
whole body text at once — followed by a single `setState(DONE)`.  The sync
branch never raises the send flag (only the async branch does, line 413),
and it never passes through HEADERS_RECEIVED or LOADING. -/
def syncComplete (s : XHR) (resp : SyncResp) : XHR :=
  match resp.err with
  | some (e, stack) => handleError s e stack
  | none =>
    let s1 : XHR := { s with
      responseHeaders := resp.headers,
      status := some resp.statusCode,
      responseText := resp.text }
    setState s1 DONE

/-- One `response.on("data")` callback (lines 458-467): append a truthy
chunk, then transition to LOADING unless the send flag has been cleared by
`abort`. -/
def asyncDataChunk (s : XHR) (chunk : String) : XHR :=
  let s1 : XHR := if chunk ≠ "" then { s with responseText := s.responseText ++ chunk } else s
  if s1.sendFlag then setState s1 LOADING else s1

/-- The `response.on("end")` callback (lines 469-475): transition to DONE
and clear the send flag, unless the attempt was aborted. -/
def responseEnd (s : XHR) : XHR :=
  if s.sendFlag then { (setState s DONE) with sendFlag := false } else s

/-- The non-redirect path of `responseHandler` (lines 453-456) followed by a
complete, successful stream: store the response headers, transition to
HEADERS_RECEIVED, record the status, play every data chunk, then the end
event. -/
def asyncResponseComplete (s : XHR) (statusCode : Nat)
    (respHeaders : List (String × String)) (chunks : List String) : XHR :=
  let s1 : XHR := { s with responseHeaders := respHeaders }
  let s2 : XHR := setState s1 HEADERS_RECEIVED
  let s3 : XHR := { s2 with status := some statusCode }
  responseEnd (chunks.foldl asyncDataChunk s3)

/-- The transport's body text: concatenation of the delivered chunks (the
sync worker accumulates `responseText += chunk`, line 516-518). -/
def concatChunks : List String → String
  | [] => ""
  | c :: rest => c ++ concatChunks rest

theorem setStateRsc_proj (s : XHR) :
    (setStateRsc s).status = s.status ∧ (setStateRsc s).responseText = s.responseText ∧
    (setStateRsc s).sendFlag = s.sendFlag ∧ (setStateRsc s).readyState = s.readyState ∧
    (setStateRsc s).stateLog = s.stateLog := by
  unfold setStateRsc dispatchEvent
  split <;> exact ⟨rfl, rfl, rfl, rfl, rfl⟩

theorem setStateDoneEvents_proj (s : XHR) :
    (setStateDoneEvents s).status = s.status ∧
    (setStateDoneEvents s).responseText = s.responseText ∧
    (setStateDoneEvents s).sendFlag = s.sendFlag ∧
    (setStateDoneEvents s).readyState = s.readyState ∧
    (setStateDoneEvents s).stateLog = s.stateLog := by
  unfold setStateDoneEvents dispatchEvent
  split <;> exact ⟨rfl, rfl, rfl, rfl, rfl⟩

theorem setState_status (s : XHR) (st : Nat) : (setState s st).status = s.status := by
  unfold setState
  split
  · rw [(setStateDoneEvents_proj _).1, (setStateRsc_proj _).1]
  · rfl

theorem setState_responseText (s : XHR) (st : Nat) :
    (setState s st).responseText = s.responseText := by
  unfold setState
  split
  · rw [(setStateDoneEvents_proj _).2.1, (setStateRsc_proj _).2.1]
  · rfl

theorem setState_sendFlag (s : XHR) (st : Nat) : (setState s st).sendFlag = s.sendFlag := by
  unfold setState
  split
  · rw [(setStateDoneEvents_proj _).2.2.1, (setStateRsc_proj _).2.2.1]
  · rfl

theorem setState_accepted (s : XHR) (st : Nat)
    (h : st = LOADING ∨ s.readyState ≠ st) :
    (setState s st).readyState = st ∧ (setState s st).stateLog = s.stateLog ++ [st] := by
  unfold setState
  rw [if_pos h]
  constructor
  · rw [(setStateDoneEvents_proj _).2.2.2.1, (setStateRsc_proj _).2.2.2.1]
  · rw [(setStateDoneEvents_proj _).2.2.2.2, (setStateRsc_proj _).2.2.2.2]

theorem asyncDataChunk_fields (s : XHR) (c : String) :
    (asyncDataChunk s c).responseText = s.responseText ++ c ∧
    (asyncDataChunk s c).status = s.status ∧
    (asyncDataChunk s c).sendFlag = s.sendFlag := by
  unfold asyncDataChunk
  by_cases hc : c ≠ ""
  · rw [if_pos hc]
    by_cases hs : s.sendFlag = true
    · rw [if_pos hs]
      exact ⟨setState_responseText _ _, setState_status _ _, setState_sendFlag _ _⟩
    · rw [if_neg hs]
      exact ⟨rfl, rfl, rfl⟩
  · rw [if_neg hc]
    push_neg at hc
    subst hc
    by_cases hs : s.sendFlag = true
    · rw [if_pos hs]
      refine ⟨?_, setState_status _ _, setState_sendFlag _ _⟩
      rw [setState_responseText, String.append_empty]
    · rw [if_neg hs]
      exact ⟨(String.append_empty s.responseText).symm, rfl, rfl⟩

theorem asyncDataLoop_fields (chunks : List String) (s : XHR) :
    (chunks.foldl asyncDataChunk s).responseText = s.responseText ++ concatChunks chunks ∧
    (chunks.foldl asyncDataChunk s).status = s.status ∧
    (chunks.foldl asyncDataChunk s).sendFlag = s.sendFlag := by
  induction chunks generalizing s with
  | nil =>
    refine ⟨?_, rfl, rfl⟩
    rw [concatChunks, String.append_empty]
    rfl
  | cons c rest ih =>
    obtain ⟨i1, i2, i3⟩ := ih (asyncDataChunk s c)
    obtain ⟨h1, h2, h3⟩ := asyncDataChunk_fields s c
    refine ⟨?_, ?_, ?_⟩
    · rw [List.foldl_cons, i1, h1, concatChunks, String.append_assoc]
    · rw [List.foldl_cons, i2, h2]
    · rw [List.foldl_cons, i3, h3]

theorem responseEnd_fields (s : XHR) :
    (responseEnd s).status = s.status ∧ (responseEnd s).responseText = s.responseText := by
  unfold responseEnd
  by_cases hs : s.sendFlag = true
  · rw [if_pos hs]
    exact ⟨setState_status _ _, setState_responseText _ _⟩
  · rw [if_neg hs]
    exact ⟨rfl, rfl⟩

/-- A successful worker handoff record. -/
def syncRespOf (code : Nat) (hs : List (String × String)) (text : String) : SyncResp :=
  { err := none, statusCode := code, headers := hs, text := text }

/-- The state of the async attempt when `responseHandler` runs: same base
state, but the async flag and (line 413) the send flag are set. -/
def asyncStarted (s : XHR) : XHR :=
  { s with settingsAsync := true, sendFlag := true }

/-- The state right before the sync branch's single `setState(DONE)`
(lines 561-563): response installed, status and body assigned. -/
def syncInstalled (s : XHR) (code : Nat) (hs : List (String × String)) (text : String) : XHR :=
  { s with responseHeaders := hs, status := some code, responseText := text }

/-- The async attempt's state after HEADERS_RECEIVED and the status
assignment (lines 453-456). -/
def asyncAtHeaders (s : XHR) (code : Nat) (hs : List (String × String)) : XHR :=
  { (setState { (asyncStarted s) with responseHeaders := hs } HEADERS_RECEIVED) with
    status := some code }

/-- C8: a synchronous network request that completes successfully returns
from `send` only at readyState DONE, carrying the transport's status code
and the whole body text, identical in `status`/`responseText` to what the
async path produces for the same target (whose chunks concatenate to the
same body); and the state moves directly from OPENED to DONE — the only
readyState assignment of the sync completion is DONE, so HEADERS_RECEIVED
and LOADING are never visited. -/
theorem sync_send_matches_async (s : XHR) (code : Nat)
    (respHeaders : List (String × String)) (chunks : List String)
    (hrs : s.readyState = OPENED) (htext : s.responseText = "")
    (hred : ¬(code = 301 ∨ code = 302 ∨ code = 303 ∨ code = 307)) :
    (syncComplete s (syncRespOf code respHeaders (concatChunks chunks))).readyState = DONE ∧
    (syncComplete s (syncRespOf code respHeaders (concatChunks chunks))).status = some code ∧
    (syncComplete s (syncRespOf code respHeaders (concatChunks chunks))).responseText =
      concatChunks chunks ∧
    (syncComplete s (syncRespOf code respHeaders (concatChunks chunks))).status =
      (asyncResponseComplete (asyncStarted s) code respHeaders chunks).status ∧
    (syncComplete s (syncRespOf code respHeaders (concatChunks chunks))).responseText =
      (asyncResponseComplete (asyncStarted s) code respHeaders chunks).responseText ∧
    (syncComplete s (syncRespOf code respHeaders (concatChunks chunks))).stateLog =
      s.stateLog ++ [DONE] := by
  have hsync : syncComplete s (syncRespOf code respHeaders (concatChunks chunks)) =
      setState (syncInstalled s code respHeaders (concatChunks chunks)) DONE := rfl
  have haccept : (DONE = LOADING ∨
      (syncInstalled s code respHeaders (concatChunks chunks)).readyState ≠ DONE) := by
    right
    show s.readyState ≠ DONE
    rw [hrs]
    decide
  obtain ⟨hrdy, hlog⟩ := setState_accepted _ DONE haccept
  have hasync : asyncResponseComplete (asyncStarted s) code respHeaders chunks =
      responseEnd (chunks.foldl asyncDataChunk (asyncAtHeaders s code respHeaders)) := rfl
  obtain ⟨hl1, hl2, hl3⟩ := asyncDataLoop_fields chunks (asyncAtHeaders s code respHeaders)
  obtain ⟨he1, he2⟩ :=
    responseEnd_fields (chunks.foldl asyncDataChunk (asyncAtHeaders s code respHeaders))
  refine ⟨?_, ?_, ?_, ?_, ?_, ?_⟩
  · rw [hsync]
    exact hrdy
  · rw [hsync, setState_status]
    rfl
  · rw [hsync, setState_responseText]
    rfl
  · rw [hsync, setState_status, hasync, he1, hl2]
    show some code = (asyncAtHeaders s code respHeaders).status
    rfl
  · rw [hsync, setState_responseText, hasync, he2, hl1]
    show concatChunks chunks = _
    have hrt : (asyncAtHeaders s code respHeaders).responseText = s.responseText := by
      show (setState { (asyncStarted s) with responseHeaders := respHeaders }
        HEADERS_RECEIVED).responseText = s.responseText
      rw [setState_responseText]
      rfl
    rw [hrt, htext, String.empty_append]
  · rw [hsync, hlog]
    rfl

theorem sync_send_matches_async_witness :
    (syncComplete witnessOpened (syncRespOf 201 [] (concatChunks ["\x7b\x7d"]))).readyState = DONE ∧
    (syncComplete witnessOpened (syncRespOf 201 [] (concatChunks ["\x7b\x7d"]))).status = some 201 ∧
    (syncComplete witnessOpened (syncRespOf 201 [] (concatChunks ["\x7b\x7d"]))).responseText =
      concatChunks ["\x7b\x7d"] ∧
    (syncComplete witnessOpened (syncRespOf 201 [] (concatChunks ["\x7b\x7d"]))).status =
      (asyncResponseComplete (asyncStarted witnessOpened) 201 [] ["\x7b\x7d"]).status ∧
    (syncComplete witnessOpened (syncRespOf 201 [] (concatChunks ["\x7b\x7d"]))).responseText =
      (asyncResponseComplete (asyncStarted witnessOpened) 201 [] ["\x7b\x7d"]).responseText ∧
    (syncComplete witnessOpened (syncRespOf 201 [] (concatChunks ["\x7b\x7d"]))).stateLog =
      witnessOpened.stateLog ++ [DONE] :=
  sync_send_matches_async witnessOpened 201 [] ["\x7b\x7d"] rfl rfl (by decide)
